import Mathlib

/-!
Shallow embedding of the ProductHub HTTP server (`src/index.js`): a flat
dispatch table of Express handlers over MongoDB collections.  Each handler is
modelled as a pure function from the request data and the relevant collection
state to a response together with the updated collection state.  Store
failures (a throwing `connectDB()` or driver call, caught by each handler's
`try/catch`) are modelled by a `dbOk : Bool` flag: when it is `false` the
handler takes its `catch` branch.  Documents are association lists of string
keys to JSON-like scalar values; carts, whose fields the code reads
structurally, are modelled as typed records.
-/

namespace ProductHub

/-- JSON-like scalar values stored in document fields. -/
inductive JVal where
  | null
  | bool (b : Bool)
  | num (n : Int)
  | str (s : String)
  | date (t : Nat)
deriving DecidableEq, Repr

/-- A document: an association list from field names to values (JS objects
have no duplicate keys, but nothing below depends on that). -/
abbrev Doc := List (String × JVal)

/-- Field lookup, first occurrence of the key (JS property access). -/
def Doc.get : Doc → String → Option JVal
  | [], _ => none
  | p :: rest, k => if p.1 == k then some p.2 else Doc.get rest k

/-- JS object update `{...d, k: v}` for a single key: if `k` is already a key
its value is replaced in place, otherwise the pair is appended at the end. -/
def setField (d : Doc) (k : String) (v : JVal) : Doc :=
  if d.any (fun p => p.1 == k) then
    d.map (fun p => if p.1 == k then (k, v) else p)
  else
    d ++ [(k, v)]

/-- JS truthiness of a field value. -/
def truthy : JVal → Bool
  | .null => false
  | .bool b => b
  | .num n => n != 0
  | .str s => s != ""
  | .date _ => true

/-- JS truthiness of a possibly-absent field (`undefined` is falsy). -/
def truthyOpt : Option JVal → Bool
  | none => false
  | some v => truthy v

/-- `new ObjectId(s)` succeeds exactly on 24-character hex strings; a
syntactically invalid id makes the constructor throw (caught by the
handler). -/
def isValidObjectId (s : String) : Bool :=
  s.length == 24 && s.data.all (fun c => c.isDigit || ('a' ≤ c.toLower && c.toLower ≤ 'f'))

/-- The MongoDB filter `{_id: oid}` as a predicate on documents. -/
def idMatch (id : String) (d : Doc) : Bool :=
  Doc.get d "_id" == some (.str id)

/-- `updateOne`: replace the first document matching `pred` by its image
under `f`; all other documents keep their value and their position. -/
def updateFirst (pred : Doc → Bool) (f : Doc → Doc) : List Doc → List Doc
  | [] => []
  | d :: rest => if pred d then f d :: rest else d :: updateFirst pred f rest

/-- `deleteOne`: remove the first document matching `pred`. -/
def removeFirst (pred : Doc → Bool) : List Doc → List Doc
  | [] => []
  | d :: rest => if pred d then rest else d :: removeFirst pred rest

/-- Response of a GET handler: an HTTP status and a JSON body that is either
an array of documents or a single object. -/
inductive JBody where
  | arr (docs : List Doc)
  | obj (d : Doc)
deriving DecidableEq, Repr

/-- `true` exactly when the body is of array type. -/
def JBody.isArr : JBody → Bool
  | .arr _ => true
  | .obj _ => false

structure GetRes where
  status : Nat
  body : JBody
deriving DecidableEq, Repr

/-- `GET /products`: list all products.  `find().toArray()` always yields an
array, so the `Array.isArray` ternary takes its first branch; any store
exception is caught and answered with `res.send([])` (status 200). -/
def getProducts (dbOk : Bool) (products : List Doc) : GetRes :=
  if dbOk then ⟨200, .arr products⟩ else ⟨200, .arr []⟩

/-- `GET /products/user/:uid`: list products whose `userId` equals `uid`;
exceptions are caught and answered with `res.send([])` (status 200). -/
def getProductsByUser (dbOk : Bool) (products : List Doc) (uid : String) : GetRes :=
  if dbOk then
    ⟨200, .arr (products.filter (fun d => Doc.get d "userId" == some (.str uid)))⟩
  else ⟨200, .arr []⟩

/-- `GET /products/:id`: parse the id (throwing on a malformed one), fetch
the first matching document, and send it, or `{}` when absent; the catch
branch answers `res.send({})` with the default status 200. -/
def getProductById (dbOk : Bool) (products : List Doc) (id : String) : GetRes :=
  if dbOk = false then ⟨200, .obj []⟩
  else if isValidObjectId id = false then ⟨200, .obj []⟩
  else
    match products.find? (idMatch id) with
    | some d => ⟨200, .obj d⟩
    | none => ⟨200, .obj []⟩

/-- The document built by `POST /products`: the request body spread first,
then `inStock: true` and `createdAt: new Date()` written over it. -/
def mkProduct (body : Doc) (now : Nat) : Doc :=
  setField (setField body "inStock" (.bool true)) "createdAt" (.date now)

structure InsertRes where
  status : Nat
  success : Bool
  insertedId : Option String
  docs : List Doc
deriving DecidableEq, Repr

/-- `POST /products`: insert the shaped document and answer
`{success:true, insertedId}`; the catch branch answers 500
`{success:false}`.  `now` is the clock reading and `newId` the id the store
assigns to the inserted document. -/
def postProducts (dbOk : Bool) (products : List Doc) (body : Doc) (now : Nat)
    (newId : String) : InsertRes :=
  if dbOk then ⟨200, true, some newId, products ++ [mkProduct body now]⟩
  else ⟨500, false, none, products⟩

structure MutRes where
  status : Nat
  success : Bool
  docs : List Doc
deriving DecidableEq, Repr

/-- `DELETE /products/:id`: delete the first match and answer
`{success: deletedCount > 0}`; a malformed id or store failure throws into
the catch branch, 500 `{success:false}`. -/
def deleteProduct (dbOk : Bool) (products : List Doc) (id : String) : MutRes :=
  if !dbOk || !isValidObjectId id then ⟨500, false, products⟩
  else ⟨200, products.any (idMatch id), removeFirst (idMatch id) products⟩

/-- `DELETE /categories/:id`: delete the first match and answer
`{success:true}` without consulting the delete result; a malformed id or
store failure throws into the catch branch, 500 `{success:false}`. -/
def deleteCategory (dbOk : Bool) (categories : List Doc) (id : String) : MutRes :=
  if !dbOk || !isValidObjectId id then ⟨500, false, categories⟩
  else ⟨200, true, removeFirst (idMatch id) categories⟩

/-- `PATCH /products/toggle/:id`: fetch the product; when absent answer
`{success:false}` (status 200); otherwise set `inStock` to the negation of
its truthiness and answer `{success:true}`; a malformed id or store failure
takes the catch branch, 500 `{success:false}`. -/
def toggleProduct (dbOk : Bool) (products : List Doc) (id : String) : MutRes :=
  if !dbOk || !isValidObjectId id then ⟨500, false, products⟩
  else
    match products.find? (idMatch id) with
    | none => ⟨200, false, products⟩
    | some p =>
        ⟨200, true,
          updateFirst (idMatch id)
            (fun d => setField d "inStock" (.bool (!truthyOpt (Doc.get p "inStock"))))
            products⟩

structure DashRes where
  status : Nat
  totalProducts : Nat
  totalOrders : Nat
  totalEarnings : Nat
  ratings : List Doc
deriving DecidableEq, Repr

/-- `GET /store-dashboard/:uid`: count products owned by `uid`, fetch
ratings whose `sellerId` is `uid`, and answer with `totalOrders` and
`totalEarnings` hardcoded to 0; the catch branch answers 500 with the
all-zero object. -/
def storeDashboard (dbOk : Bool) (products ratings : List Doc) (uid : String) : DashRes :=
  if dbOk then
    ⟨200,
      (products.filter (fun d => Doc.get d "userId" == some (.str uid))).length,
      0, 0,
      ratings.filter (fun d => Doc.get d "sellerId" == some (.str uid))⟩
  else ⟨500, 0, 0, 0, []⟩

/-- JS falsiness of a request-body string field: absent (`undefined`) or the
empty string. -/
def falsy : Option String → Bool
  | none => true
  | some s => s == ""

/-- Startup: `process.env.MONGO_URI` is read at module load and
`throw new Error("MONGO_URI is missing")` fires when it is falsy, before any
request is served. -/
def startServer (mongoUri : Option String) : Except String Unit :=
  if falsy mongoUri then .error "MONGO_URI is missing" else .ok ()

structure RootRes where
  status : Nat
  ok : Bool
deriving DecidableEq, Repr

/-- `GET /`: liveness check; a connection failure is caught and answered 500
`{status:"error"}`. -/
def rootCheck (dbOk : Bool) : RootRes :=
  if dbOk then ⟨200, true⟩ else ⟨500, false⟩

/-- A cart item `{productId, qty}` as read and written by the cart
handlers. -/
structure CartItem where
  productId : String
  qty : Nat
deriving DecidableEq, Repr

/-- A cart document `{userId, items}`. -/
structure Cart where
  userId : String
  items : List CartItem
deriving DecidableEq, Repr

/-- `Carts.findOne({userId})`: the first cart with the given owner. -/
def findCart (userId : String) (carts : List Cart) : Option Cart :=
  carts.find? (fun c => c.userId == userId)

/-- `items.find(i => i.productId === productId)` succeeds, as a Boolean. -/
def hasItem (productId : String) (items : List CartItem) : Bool :=
  items.any (fun i => i.productId == productId)

/-- `item.qty++` on the first item matching `productId`; every other item is
untouched and positions are preserved. -/
def bumpQty (productId : String) : List CartItem → List CartItem
  | [] => []
  | i :: rest =>
      if i.productId == productId then { i with qty := i.qty + 1 } :: rest
      else i :: bumpQty productId rest

/-- The item-list transformation of the cart-add else-branch: bump the first
matching item, or push `{productId, qty: 1}` at the end. -/
def addToItems (productId : String) (items : List CartItem) : List CartItem :=
  if hasItem productId items then bumpQty productId items
  else items ++ [⟨productId, 1⟩]

/-- `Carts.updateOne({userId}, {$set: {items}})`: overwrite the item list of
the first cart owned by `userId`; other carts keep value and position. -/
def setCartItems (userId : String) (items : List CartItem) : List Cart → List Cart
  | [] => []
  | c :: rest =>
      if c.userId == userId then { c with items := items } :: rest
      else c :: setCartItems userId items rest

structure CartAddRes where
  status : Nat
  success : Bool
  carts : List Cart
deriving DecidableEq, Repr

/-- `POST /cart/add` with the store operations succeeding: destructure
`userId` and `productId` from the body (each possibly absent), answer 400
`{success:false}` when either is falsy, otherwise create the cart or rewrite
its item list and answer `{success:true}`. -/
def cartAdd (carts : List Cart) (userId? productId? : Option String) : CartAddRes :=
  if falsy userId? || falsy productId? then ⟨400, false, carts⟩
  else
    let userId := userId?.getD ""
    let productId := productId?.getD ""
    match findCart userId carts with
    | none => ⟨200, true, carts ++ [⟨userId, [⟨productId, 1⟩]⟩]⟩
    | some cart => ⟨200, true, setCartItems userId (addToItems productId cart.items) carts⟩

/-- `POST /cart/add` including the catch branch: a store failure throws
before anything is written and is answered 500 `{success:false}`. -/
def cartAddReq (dbOk : Bool) (carts : List Cart) (userId? productId? : Option String) :
    CartAddRes :=
  if dbOk then cartAdd carts userId? productId? else ⟨500, false, carts⟩

/-- Replay a sequence of `POST /cart/add` bodies against the carts
collection. -/
def runAdds (carts : List Cart) : List (Option String × Option String) → List Cart
  | [] => carts
  | (u, p) :: rest => runAdds (cartAdd carts u p).carts rest

/-- The cart invariant: at most one cart per `userId`, and within each cart
at most one item per `productId`. -/
def cartsOk (carts : List Cart) : Prop :=
  (carts.map Cart.userId).Nodup ∧
  ∀ c ∈ carts, (c.items.map CartItem.productId).Nodup

instance (carts : List Cart) : Decidable (cartsOk carts) := by
  unfold cartsOk; infer_instance

/-- Quantity carried by the first item matching `productId` (0 when there is
none). -/
def qtyOf (productId : String) (items : List CartItem) : Nat :=
  ((items.find? (fun i => i.productId == productId)).map CartItem.qty).getD 0

/-! ### Lemmas about document field access -/

theorem get_map_replace_same (d : Doc) (k : String) (v : JVal)
    (h : d.any (fun p => p.1 == k) = true) :
    Doc.get (d.map (fun p => if p.1 == k then (k, v) else p)) k = some v := by
  induction d with
  | nil => simp at h
  | cons q rest ih =>
      by_cases hq : (q.1 == k) = true
      · simp [Doc.get, hq]
      · have hrest : rest.any (fun p => p.1 == k) = true := by
          simp only [List.any_cons, hq, Bool.false_or] at h
          exact h
        simp only [List.map_cons, hq, if_false, Doc.get, Bool.false_eq_true]
        exact ih hrest

theorem get_append_single_same (d : Doc) (k : String) (v : JVal)
    (h : d.any (fun p => p.1 == k) = false) :
    Doc.get (d ++ [(k, v)]) k = some v := by
  induction d with
  | nil => simp [Doc.get]
  | cons q rest ih =>
      simp only [List.any_cons, Bool.or_eq_false_iff] at h
      simp only [List.cons_append, Doc.get, h.1, Bool.false_eq_true, if_false]
      exact ih h.2

theorem get_map_replace_other (d : Doc) (k k' : String) (v : JVal) (h : k' ≠ k) :
    Doc.get (d.map (fun p => if p.1 == k then (k, v) else p)) k' = Doc.get d k' := by
  have hkk : (k == k') = false := beq_eq_false_iff_ne.mpr (Ne.symm h)
  induction d with
  | nil => rfl
  | cons q rest ih =>
      by_cases hq : (q.1 == k) = true
      · have hq' : (q.1 == k') = false := by
          rw [beq_iff_eq] at hq
          rw [hq]; exact hkk
        rw [List.map_cons, if_pos hq]
        simp only [Doc.get, hq', hkk, Bool.false_eq_true, if_false]
        exact ih
      · simp only [List.map_cons, hq, if_false, Doc.get, Bool.false_eq_true]
        split
        · rfl
        · exact ih

theorem get_append_single_other (d : Doc) (k k' : String) (v : JVal) (h : k' ≠ k) :
    Doc.get (d ++ [(k, v)]) k' = Doc.get d k' := by
  have hkk : (k == k') = false := beq_eq_false_iff_ne.mpr (Ne.symm h)
  induction d with
  | nil => simp [Doc.get, hkk]
  | cons q rest ih =>
      simp only [List.cons_append, Doc.get]
      split
      · rfl
      · exact ih

theorem get_setField_same (d : Doc) (k : String) (v : JVal) :
    Doc.get (setField d k v) k = some v := by
  unfold setField
  split
  · rename_i h
    exact get_map_replace_same d k v h
  · rename_i h
    exact get_append_single_same d k v (Bool.eq_false_iff.mpr h)

theorem get_setField_other (d : Doc) (k k' : String) (v : JVal) (h : k' ≠ k) :
    Doc.get (setField d k v) k' = Doc.get d k' := by
  unfold setField
  split
  · exact get_map_replace_other d k k' v h
  · exact get_append_single_other d k k' v h

theorem removeFirst_of_any_false (pred : Doc → Bool) (l : List Doc)
    (h : l.any pred = false) : removeFirst pred l = l := by
  induction l with
  | nil => rfl
  | cons d rest ih =>
      simp only [List.any_cons, Bool.or_eq_false_iff] at h
      simp [removeFirst, h.1, ih h.2]

/-! ### Claim theorems for the product, category and dashboard endpoints -/

/-- C2: every POST /products body is stored with `inStock == true` and a
system-generated `createdAt` (even when the body supplies those fields), all
other body fields pass through unchanged, and the success response is
`{success:true, insertedId}`. -/
theorem post_products_contract (products : List Doc) (body : Doc) (now : Nat)
    (newId : String) :
    Doc.get (mkProduct body now) "inStock" = some (.bool true) ∧
    Doc.get (mkProduct body now) "createdAt" = some (.date now) ∧
    (∀ k, k ≠ "inStock" → k ≠ "createdAt" →
      Doc.get (mkProduct body now) k = Doc.get body k) ∧
    postProducts true products body now newId
      = ⟨200, true, some newId, products ++ [mkProduct body now]⟩ := by
  refine ⟨?_, ?_, ?_, rfl⟩
  · rw [mkProduct, get_setField_other _ _ _ _ (by decide), get_setField_same]
  · rw [mkProduct, get_setField_same]
  · intro k h1 h2
    rw [mkProduct, get_setField_other _ _ _ _ h2, get_setField_other _ _ _ _ h1]

theorem post_products_contract_witness :
    ("name" : String) ≠ "inStock" ∧ ("name" : String) ≠ "createdAt" ∧
    Doc.get (mkProduct [("name", JVal.str "x"), ("inStock", JVal.bool false),
        ("createdAt", JVal.num 3)] 7) "name"
      = Doc.get [("name", JVal.str "x"), ("inStock", JVal.bool false),
        ("createdAt", JVal.num 3)] "name" :=
  ⟨by decide, by decide,
    (post_products_contract [] [("name", JVal.str "x"), ("inStock", JVal.bool false),
        ("createdAt", JVal.num 3)] 7 "id1").2.2.1 "name" (by decide) (by decide)⟩

/-- C3 as frozen is false on the code: for the syntactically invalid id
"zz" the handler's catch branch answers `res.send({})` with the default
HTTP status 200, not the status 400 stated in the claim. -/
theorem get_product_invalid_id_cex :
    (getProductById true [] "zz").status = 200 ∧
    (getProductById true [] "zz").status ≠ 400 ∧
    (getProductById true [] "zz").body = .obj [] := by
  decide

/-- C3 (amended): for every GET /products/:id whose :id fails ObjectId
parsing, the response body is `{}` (never a differently-shaped body) and the
response carries HTTP status 200 — the endpoint table's 400 never occurs. -/
theorem get_product_invalid_id (dbOk : Bool) (products : List Doc) (id : String)
    (h : isValidObjectId id = false) :
    getProductById dbOk products id = ⟨200, .obj []⟩ := by
  cases dbOk <;> simp [getProductById, h]

theorem get_product_invalid_id_witness :
    isValidObjectId "zz-invalid" = false ∧
    getProductById true [[("_id", JVal.str "a")]] "zz-invalid" = ⟨200, .obj []⟩ :=
  ⟨by decide, get_product_invalid_id true [[("_id", JVal.str "a")]] "zz-invalid" (by decide)⟩

/-- C4: /store-dashboard/:uid answers `totalOrders = 0` and
`totalEarnings = 0` on both the success and the error path; on success
`totalProducts` is the number of products owned by `uid` and `ratings` are
exactly the stored ratings whose `sellerId` is `uid`. -/
theorem store_dashboard_contract (dbOk : Bool) (products ratings : List Doc)
    (uid : String) :
    (storeDashboard dbOk products ratings uid).totalOrders = 0 ∧
    (storeDashboard dbOk products ratings uid).totalEarnings = 0 ∧
    (storeDashboard true products ratings uid).status = 200 ∧
    (storeDashboard true products ratings uid).totalProducts
      = products.countP (fun d => Doc.get d "userId" == some (.str uid)) ∧
    (∀ r, r ∈ (storeDashboard true products ratings uid).ratings ↔
      (r ∈ ratings ∧ Doc.get r "sellerId" = some (.str uid))) ∧
    storeDashboard false products ratings uid = ⟨500, 0, 0, 0, []⟩ := by
  refine ⟨?_, ?_, rfl, ?_, ?_, rfl⟩
  · cases dbOk <;> rfl
  · cases dbOk <;> rfl
  · simp [storeDashboard, List.countP_eq_length_filter]
  · intro r
    simp [storeDashboard, List.mem_filter]

theorem store_dashboard_contract_witness :
    (storeDashboard true [[("userId", JVal.str "u1")]]
        [[("sellerId", JVal.str "u1")]] "u1").totalOrders = 0 ∧
    (storeDashboard false [[("userId", JVal.str "u1")]]
        [[("sellerId", JVal.str "u1")]] "u1").totalEarnings = 0 :=
  ⟨(store_dashboard_contract true [[("userId", JVal.str "u1")]]
      [[("sellerId", JVal.str "u1")]] "u1").1,
   (store_dashboard_contract false [[("userId", JVal.str "u1")]]
      [[("sellerId", JVal.str "u1")]] "u1").2.1⟩

/-- C6: GET /products and GET /products/user/:uid always answer an
array-typed body with status 200 (never a 500, never an error object), the
empty array when the store fails. -/
theorem listing_endpoints_always_array (dbOk : Bool) (products : List Doc)
    (uid : String) :
    (getProducts dbOk products).body.isArr = true ∧
    (getProducts dbOk products).status = 200 ∧
    (getProductsByUser dbOk products uid).body.isArr = true ∧
    (getProductsByUser dbOk products uid).status = 200 ∧
    (getProducts false products).body = .arr [] ∧
    (getProductsByUser false products uid).body = .arr [] := by
  cases dbOk <;> exact ⟨rfl, rfl, rfl, rfl, rfl, rfl⟩

/-- C7: DELETE /categories/:id answers `{success:true}` for every
well-formed id whether or not a category matched, DELETE /products/:id
answers `{success: deletedCount > 0}` (so `{success:false}` when nothing
matched), and only an exception — malformed id or store failure — produces
the 500 `{success:false}` response for either route. -/
theorem delete_semantics (categories products : List Doc) (id : String)
    (hid : isValidObjectId id = true) :
    deleteCategory true categories id = ⟨200, true, removeFirst (idMatch id) categories⟩ ∧
    deleteProduct true products id
      = ⟨200, products.any (idMatch id), removeFirst (idMatch id) products⟩ ∧
    (products.any (idMatch id) = false →
      deleteProduct true products id = ⟨200, false, products⟩) ∧
    (∀ docs id2, isValidObjectId id2 = false →
      deleteCategory true docs id2 = ⟨500, false, docs⟩ ∧
      deleteProduct true docs id2 = ⟨500, false, docs⟩) ∧
    (∀ docs, deleteCategory false docs id = ⟨500, false, docs⟩ ∧
      deleteProduct false docs id = ⟨500, false, docs⟩) := by
  refine ⟨?_, ?_, ?_, ?_, fun docs => ⟨rfl, rfl⟩⟩
  · simp [deleteCategory, hid]
  · simp [deleteProduct, hid]
  · intro hnone
    simp [deleteProduct, hid, hnone, removeFirst_of_any_false _ _ hnone]
  · intro docs id2 h2
    exact ⟨by simp [deleteCategory, h2], by simp [deleteProduct, h2]⟩

theorem delete_semantics_witness :
    isValidObjectId "0123456789abcdef01234567" = true ∧
    deleteCategory true [] "0123456789abcdef01234567" = ⟨200, true, []⟩ :=
  ⟨by decide, (delete_semantics [] [] "0123456789abcdef01234567" (by decide)).1⟩

/-- C9: a falsy MONGO_URI (in particular an absent one) makes startup throw
before any request is served, a present non-empty one starts fine, and every
per-request store failure is caught and mapped to that handler's default
response without touching any collection. -/
theorem startup_and_failure_defaults :
    startServer none = .error "MONGO_URI is missing" ∧
    (∀ u : String, u ≠ "" → startServer (some u) = .ok ()) ∧
    (∀ ps, getProducts false ps = ⟨200, .arr []⟩) ∧
    (∀ ps uid, getProductsByUser false ps uid = ⟨200, .arr []⟩) ∧
    (∀ ps id, getProductById false ps id = ⟨200, .obj []⟩) ∧
    (∀ ps body now nid, postProducts false ps body now nid = ⟨500, false, none, ps⟩) ∧
    (∀ ps id, toggleProduct false ps id = ⟨500, false, ps⟩) ∧
    (∀ ps id, deleteProduct false ps id = ⟨500, false, ps⟩) ∧
    (∀ cs id, deleteCategory false cs id = ⟨500, false, cs⟩) ∧
    (∀ carts u p, cartAddReq false carts u p = ⟨500, false, carts⟩) ∧
    (∀ ps rs uid, storeDashboard false ps rs uid = ⟨500, 0, 0, 0, []⟩) ∧
    rootCheck false = ⟨500, false⟩ := by
  refine ⟨rfl, ?_, fun _ => rfl, fun _ _ => rfl, fun _ _ => rfl, fun _ _ _ _ => rfl,
    fun _ _ => rfl, fun _ _ => rfl, fun _ _ => rfl, fun _ _ _ => rfl, fun _ _ _ => rfl,
    rfl⟩
  intro u hu
  simp [startServer, falsy, hu]

theorem startup_and_failure_defaults_witness :
    ("mongodb://x" : String) ≠ "" ∧ startServer (some "mongodb://x") = .ok () :=
  ⟨by decide, startup_and_failure_defaults.2.1 "mongodb://x" (by decide)⟩

/-! ### The stock toggle -/

theorem find?_updateFirst (pred : Doc → Bool) (f : Doc → Doc) (l : List Doc) (d : Doc)
    (hfind : l.find? pred = some d) (hf : pred (f d) = true) :
    (updateFirst pred f l).find? pred = some (f d) := by
  induction l with
  | nil => simp at hfind
  | cons x rest ih =>
      by_cases hx : pred x = true
      · rw [List.find?_cons_of_pos _ hx] at hfind
        injection hfind with hxd
        subst hxd
        rw [updateFirst, if_pos hx, List.find?_cons_of_pos _ hf]
      · rw [List.find?_cons_of_neg _ hx] at hfind
        rw [updateFirst, if_neg (by simp [hx]), List.find?_cons_of_neg _ hx]
        exact ih hfind

/-- C5: toggling a product present in the store twice in succession restores
its original `inStock` value, and a single toggle on an absent id answers
`{success:false}` and changes no document. -/
theorem toggle_twice_restores (products : List Doc) (id : String) (d : Doc) (b : Bool)
    (hid : isValidObjectId id = true)
    (hfind : products.find? (idMatch id) = some d)
    (hstock : Doc.get d "inStock" = some (.bool b)) :
    (∃ d2,
      ((toggleProduct true (toggleProduct true products id).docs id).docs.find?
          (idMatch id)) = some d2 ∧
      Doc.get d2 "inStock" = some (.bool b)) ∧
    (toggleProduct true products id).success = true ∧
    (∀ ps : List Doc, ps.find? (idMatch id) = none →
      toggleProduct true ps id = ⟨200, false, ps⟩) := by
  have hpredd : idMatch id d = true := List.find?_some hfind
  have hpred_set : ∀ (x : Doc) (v : JVal),
      idMatch id (setField x "inStock" v) = idMatch id x := by
    intro x v
    unfold idMatch
    rw [get_setField_other _ _ _ _ (by decide)]
  have hval : (!truthyOpt (Doc.get d "inStock")) = !b := by
    rw [hstock]; rfl
  have h1 : toggleProduct true products id
      = ⟨200, true, updateFirst (idMatch id)
          (fun x => setField x "inStock" (JVal.bool (!b))) products⟩ := by
    simp [toggleProduct, hid, hfind, hval]
  have hf1 : idMatch id (setField d "inStock" (JVal.bool (!b))) = true := by
    rw [hpred_set]; exact hpredd
  have hfind1 : (updateFirst (idMatch id)
      (fun x => setField x "inStock" (JVal.bool (!b))) products).find? (idMatch id)
      = some (setField d "inStock" (JVal.bool (!b))) :=
    find?_updateFirst _ _ _ _ hfind hf1
  have hget1 : Doc.get (setField d "inStock" (JVal.bool (!b))) "inStock"
      = some (JVal.bool (!b)) :=
    get_setField_same _ _ _
  refine ⟨?_, ?_, ?_⟩
  · rw [h1]
    have h2 : toggleProduct true (updateFirst (idMatch id)
        (fun x => setField x "inStock" (JVal.bool (!b))) products) id
        = ⟨200, true, updateFirst (idMatch id)
            (fun x => setField x "inStock" (JVal.bool b))
            (updateFirst (idMatch id)
              (fun x => setField x "inStock" (JVal.bool (!b))) products)⟩ := by
      simp [toggleProduct, hid, hfind1, hget1, truthyOpt, truthy, Bool.not_not]
    rw [h2]
    refine ⟨setField (setField d "inStock" (JVal.bool (!b))) "inStock" (JVal.bool b),
      ?_, ?_⟩
    · apply find?_updateFirst _ _ _ _ hfind1
      rw [hpred_set]; exact hf1
    · rw [get_setField_same]
  · rw [h1]
  · intro ps hnone
    simp [toggleProduct, hid, hnone]

theorem toggle_twice_restores_witness :
    isValidObjectId "0123456789abcdef01234567" = true ∧
    [[("_id", JVal.str "0123456789abcdef01234567"), ("inStock", JVal.bool true)]].find?
        (idMatch "0123456789abcdef01234567")
      = some [("_id", JVal.str "0123456789abcdef01234567"), ("inStock", JVal.bool true)] ∧
    (toggleProduct true [[("_id", JVal.str "0123456789abcdef01234567"),
        ("inStock", JVal.bool true)]] "0123456789abcdef01234567").success = true :=
  ⟨by decide, by decide,
    (toggle_twice_restores
      [[("_id", JVal.str "0123456789abcdef01234567"), ("inStock", JVal.bool true)]]
      "0123456789abcdef01234567"
      [("_id", JVal.str "0123456789abcdef01234567"), ("inStock", JVal.bool true)]
      true (by decide) (by decide) (by decide)).2.1⟩

/-! ### Lemmas about the cart operations -/

theorem bumpQty_length (p : String) (items : List CartItem) :
    (bumpQty p items).length = items.length := by
  induction items with
  | nil => rfl
  | cons i rest ih =>
      unfold bumpQty
      split
      · simp
      · simp [ih]

theorem bumpQty_map_productId (p : String) (items : List CartItem) :
    (bumpQty p items).map CartItem.productId = items.map CartItem.productId := by
  induction items with
  | nil => rfl
  | cons i rest ih =>
      unfold bumpQty
      split
      · simp
      · simp [ih]

theorem qtyOf_cons_neg (p : String) (i : CartItem) (rest : List CartItem)
    (h : (i.productId == p) = false) :
    qtyOf p (i :: rest) = qtyOf p rest := by
  unfold qtyOf
  rw [List.find?_cons_of_neg _ (by simp [h])]

theorem qtyOf_bumpQty (p : String) (items : List CartItem)
    (h : hasItem p items = true) :
    qtyOf p (bumpQty p items) = qtyOf p items + 1 := by
  induction items with
  | nil => simp [hasItem] at h
  | cons i rest ih =>
      by_cases hi : (i.productId == p) = true
      · rw [bumpQty, if_pos hi]
        simp [qtyOf, List.find?_cons, hi]
      · have hb : (i.productId == p) = false := by simpa using hi
        have h2 : hasItem p rest = true := by
          unfold hasItem at h
          simp only [List.any_cons, hb, Bool.false_or] at h
          exact h
        rw [bumpQty, if_neg (by simp [hb]), qtyOf_cons_neg _ _ _ hb,
          qtyOf_cons_neg _ _ _ hb]
        exact ih h2

theorem bumpQty_filter_ne (p : String) (items : List CartItem) :
    (bumpQty p items).filter (fun i => !(i.productId == p))
      = items.filter (fun i => !(i.productId == p)) := by
  induction items with
  | nil => rfl
  | cons i rest ih =>
      by_cases hi : (i.productId == p) = true
      · rw [bumpQty, if_pos hi]
        rw [List.filter_cons_of_neg, List.filter_cons_of_neg] <;> simp [hi]
      · have hb : (i.productId == p) = false := by simpa using hi
        rw [bumpQty, if_neg (by simp [hb])]
        rw [List.filter_cons_of_pos, List.filter_cons_of_pos] <;> simp [hb, ih]

theorem addToItems_filter_ne (p : String) (items : List CartItem) :
    (addToItems p items).filter (fun i => !(i.productId == p))
      = items.filter (fun i => !(i.productId == p)) := by
  unfold addToItems
  split
  · exact bumpQty_filter_ne p items
  · rw [List.filter_append]
    simp

theorem addToItems_nodup (p : String) (items : List CartItem)
    (h : (items.map CartItem.productId).Nodup) :
    ((addToItems p items).map CartItem.productId).Nodup := by
  unfold addToItems
  split
  · rw [bumpQty_map_productId]; exact h
  · rename_i hno
    rw [List.map_append]
    simp only [List.map_cons, List.map_nil]
    rw [List.nodup_append]
    refine ⟨h, List.nodup_singleton _, ?_⟩
    intro a ha hb
    simp only [List.mem_singleton] at hb
    subst hb
    rcases List.mem_map.mp ha with ⟨i, hi, hip⟩
    exact hno (by
      unfold hasItem
      rw [List.any_eq_true]
      exact ⟨i, hi, by simp [hip]⟩)

theorem setCartItems_map_userId (u : String) (its : List CartItem)
    (carts : List Cart) :
    (setCartItems u its carts).map Cart.userId = carts.map Cart.userId := by
  induction carts with
  | nil => rfl
  | cons c rest ih =>
      unfold setCartItems
      split
      · simp
      · simp [ih]

theorem mem_setCartItems (u : String) (its : List CartItem) (carts : List Cart) :
    ∀ c2 ∈ setCartItems u its carts, c2 ∈ carts ∨ c2.items = its := by
  induction carts with
  | nil => intro c2 h; simp [setCartItems] at h
  | cons c rest ih =>
      intro c2 h
      unfold setCartItems at h
      by_cases hc : (c.userId == u) = true
      · rw [if_pos hc] at h
        rcases List.mem_cons.mp h with h1 | h1
        · right; rw [h1]
        · left; exact List.mem_cons_of_mem _ h1
      · rw [if_neg hc] at h
        rcases List.mem_cons.mp h with h1 | h1
        · left; rw [h1]; exact List.mem_cons_self _ _
        · rcases ih c2 h1 with h2 | h2
          · left; exact List.mem_cons_of_mem _ h2
          · right; exact h2

theorem no_cart_of_findCart_none (u : String) (carts : List Cart)
    (h : findCart u carts = none) :
    ∀ c ∈ carts, (c.userId == u) = false := by
  intro c hc
  have h' : carts.find? (fun c => c.userId == u) = none := h
  have := List.find?_eq_none.mp h' c hc
  simpa using this

theorem findCart_append_of_none (u : String) (l2 : List Cart) :
    ∀ l1 : List Cart, (∀ c ∈ l1, (c.userId == u) = false) →
      findCart u (l1 ++ l2) = findCart u l2 := by
  intro l1
  induction l1 with
  | nil => intro _; rfl
  | cons c rest ih =>
      intro h
      unfold findCart
      rw [List.cons_append,
        List.find?_cons_of_neg _ (by simp [h c (List.mem_cons_self _ _)])]
      exact ih (fun x hx => h x (List.mem_cons_of_mem _ hx))

theorem setCartItems_append_of_no_match (u : String) (its : List CartItem)
    (l2 : List Cart) :
    ∀ l1 : List Cart, (∀ c ∈ l1, (c.userId == u) = false) →
      setCartItems u its (l1 ++ l2) = l1 ++ setCartItems u its l2 := by
  intro l1
  induction l1 with
  | nil => intro _; rfl
  | cons c rest ih =>
      intro h
      rw [List.cons_append]
      simp only [setCartItems]
      rw [if_neg (by simp [h c (List.mem_cons_self _ _)])]
      rw [ih (fun x hx => h x (List.mem_cons_of_mem _ hx))]
      rfl

theorem filter_userId_eq_nil (u : String) (carts : List Cart)
    (h : findCart u carts = none) :
    carts.filter (fun c => c.userId == u) = [] := by
  rw [List.filter_eq_nil_iff]
  intro c hc
  simp [no_cart_of_findCart_none u carts h c hc]

theorem cartAdd_eq_of_none (carts : List Cart) (u p : String)
    (hu : (u == "") = false) (hp : (p == "") = false)
    (hc : findCart u carts = none) :
    cartAdd carts (some u) (some p) = ⟨200, true, carts ++ [⟨u, [⟨p, 1⟩]⟩]⟩ := by
  unfold cartAdd
  rw [if_neg (by simp [falsy, hu, hp])]
  simp only [Option.getD_some, hc]

theorem cartAdd_eq_of_found (carts : List Cart) (u p : String) (c : Cart)
    (hu : (u == "") = false) (hp : (p == "") = false)
    (hc : findCart u carts = some c) :
    cartAdd carts (some u) (some p)
      = ⟨200, true, setCartItems u (addToItems p c.items) carts⟩ := by
  unfold cartAdd
  rw [if_neg (by simp [falsy, hu, hp])]
  simp only [Option.getD_some, hc]

theorem cartsOk_cartAdd (carts : List Cart) (uo po : Option String)
    (h : cartsOk carts) : cartsOk (cartAdd carts uo po).carts := by
  by_cases hfal : (falsy uo || falsy po) = true
  · unfold cartAdd
    rw [if_pos hfal]
    exact h
  · cases hfind : findCart (uo.getD "") carts with
    | none =>
        have hres : (cartAdd carts uo po).carts
            = carts ++ [⟨uo.getD "", [⟨po.getD "", 1⟩]⟩] := by
          unfold cartAdd
          rw [if_neg hfal]
          simp only [hfind]
        rw [hres]
        constructor
        · rw [List.map_append]
          simp only [List.map_cons, List.map_nil]
          rw [List.nodup_append]
          refine ⟨h.1, List.nodup_singleton _, ?_⟩
          intro a ha hb
          simp only [List.mem_singleton] at hb
          subst hb
          rcases List.mem_map.mp ha with ⟨c, hc, hcu⟩
          have h2 := no_cart_of_findCart_none _ _ hfind c hc
          rw [beq_eq_false_iff_ne] at h2
          exact h2 hcu
        · intro c hc
          rcases List.mem_append.mp hc with h1 | h1
          · exact h.2 c h1
          · simp only [List.mem_singleton] at h1
            subst h1
            simp
    | some cart =>
        have hres : (cartAdd carts uo po).carts
            = setCartItems (uo.getD "") (addToItems (po.getD "") cart.items) carts := by
          unfold cartAdd
          rw [if_neg hfal]
          simp only [hfind]
        rw [hres]
        constructor
        · rw [setCartItems_map_userId]; exact h.1
        · intro c hc
          rcases mem_setCartItems _ _ _ c hc with h1 | h1
          · exact h.2 c h1
          · rw [h1]
            exact addToItems_nodup _ _
              (h.2 cart (List.mem_of_find?_eq_some hfind))

/-! ### Claim theorems for the cart endpoint -/

/-- C1 as frozen is false on the code: the body `{userId: "", productId: "p1"}`
does not lack either field, yet `!userId` holds for the empty string, so the
handler answers 400 `{success:false}` and creates no cart instead of creating
a cart with one item as the claim's "otherwise" branch requires. -/
theorem cart_add_empty_string_cex :
    cartAdd [] (some "") (some "p1") = ⟨400, false, []⟩ ∧
    (cartAdd [] (some "") (some "p1")).success = false ∧
    (cartAdd [] (some "") (some "p1")).carts.length = 0 := by
  decide

/-- C1 (amended): POST /cart/add answers 400 `{success:false}` and changes no
cart when `userId` or `productId` is absent or the empty string (falsy);
otherwise, with both fields non-empty: with no cart for `userId` exactly one
cart document is created holding exactly the item `{productId, qty: 1}`; with
an existing cart holding a matching item exactly that item's qty is
incremented by 1 (no item added); with an existing cart and no matching item
the item `{productId, qty: 1}` is appended; every non-error case answers
`{success:true}`, and two successive adds starting from no cart leave one
cart for `userId` holding the single item with qty = 2. -/
theorem cart_add_contract (carts : List Cart) (u p : String)
    (hu : u ≠ "") (hp : p ≠ "") :
    (∀ uo po, (falsy uo || falsy po) = true →
      cartAdd carts uo po = ⟨400, false, carts⟩) ∧
    (findCart u carts = none →
      cartAdd carts (some u) (some p) = ⟨200, true, carts ++ [⟨u, [⟨p, 1⟩]⟩]⟩ ∧
      (carts ++ [(⟨u, [⟨p, 1⟩]⟩ : Cart)]).filter (fun c => c.userId == u)
        = [⟨u, [⟨p, 1⟩]⟩]) ∧
    (∀ c, findCart u carts = some c → hasItem p c.items = true →
      cartAdd carts (some u) (some p)
        = ⟨200, true, setCartItems u (bumpQty p c.items) carts⟩ ∧
      qtyOf p (bumpQty p c.items) = qtyOf p c.items + 1 ∧
      (bumpQty p c.items).length = c.items.length) ∧
    (∀ c, findCart u carts = some c → hasItem p c.items = false →
      cartAdd carts (some u) (some p)
        = ⟨200, true, setCartItems u (c.items ++ [⟨p, 1⟩]) carts⟩) ∧
    (findCart u carts = none →
      ((cartAdd (cartAdd carts (some u) (some p)).carts (some u) (some p)).carts.filter
          (fun c => c.userId == u)) = [⟨u, [⟨p, 2⟩]⟩] ∧
      (cartAdd (cartAdd carts (some u) (some p)).carts (some u) (some p)).success
        = true) := by
  have hbu : (u == "") = false := beq_eq_false_iff_ne.mpr hu
  have hbp : (p == "") = false := beq_eq_false_iff_ne.mpr hp
  refine ⟨?_, ?_, ?_, ?_, ?_⟩
  · intro uo po hfal
    unfold cartAdd
    rw [if_pos hfal]
  · intro hnone
    refine ⟨cartAdd_eq_of_none carts u p hbu hbp hnone, ?_⟩
    rw [List.filter_append, filter_userId_eq_nil u carts hnone]
    simp
  · intro c hc hhas
    refine ⟨?_, qtyOf_bumpQty p c.items hhas, bumpQty_length p c.items⟩
    rw [cartAdd_eq_of_found carts u p c hbu hbp hc]
    rw [addToItems, if_pos hhas]
  · intro c hc hhas
    rw [cartAdd_eq_of_found carts u p c hbu hbp hc]
    rw [addToItems, if_neg (by simp [hhas])]
  · intro hnone
    have hnomatch := no_cart_of_findCart_none u carts hnone
    have h1 := cartAdd_eq_of_none carts u p hbu hbp hnone
    have hfind1 : findCart u (carts ++ [⟨u, [⟨p, 1⟩]⟩]) = some ⟨u, [⟨p, 1⟩]⟩ := by
      rw [findCart_append_of_none u [⟨u, [⟨p, 1⟩]⟩] carts hnomatch]
      unfold findCart
      rw [List.find?_cons_of_pos _ (by simp)]
    have haddi : addToItems p [⟨p, 1⟩] = [⟨p, 2⟩] := by
      simp [addToItems, hasItem, bumpQty]
    have h2 := cartAdd_eq_of_found (carts ++ [⟨u, [⟨p, 1⟩]⟩]) u p ⟨u, [⟨p, 1⟩]⟩
      hbu hbp hfind1
    rw [haddi] at h2
    have hset : setCartItems u [⟨p, 2⟩] (carts ++ [⟨u, [⟨p, 1⟩]⟩])
        = carts ++ [⟨u, [⟨p, 2⟩]⟩] := by
      rw [setCartItems_append_of_no_match u [⟨p, 2⟩] [⟨u, [⟨p, 1⟩]⟩] carts hnomatch]
      simp [setCartItems]
    rw [h1]
    simp only [h2]
    rw [hset]
    refine ⟨?_, by trivial⟩
    rw [List.filter_append, filter_userId_eq_nil u carts hnone]
    simp

theorem cart_add_contract_witness :
    ("u1" : String) ≠ "" ∧ ("p1" : String) ≠ "" ∧ findCart "u1" [] = none ∧
    cartAdd [] (some "u1") (some "p1") = ⟨200, true, [⟨"u1", [⟨"p1", 1⟩]⟩]⟩ :=
  ⟨by decide, by decide, by decide,
    ((cart_add_contract [] "u1" "p1" (by decide) (by decide)).2.1 (by decide)).1⟩

/-- C8: the cart invariant — at most one cart document per userId, and
within each cart at most one item per productId — holds in every store state
reachable by sequences of POST /cart/add operations from a state satisfying
it. -/
theorem cart_invariant_reachable (carts : List Cart) (h : cartsOk carts)
    (reqs : List (Option String × Option String)) :
    cartsOk (runAdds carts reqs) := by
  induction reqs generalizing carts with
  | nil => exact h
  | cons r rest ih =>
      cases r with
      | mk u p => exact ih _ (cartsOk_cartAdd carts u p h)

theorem cart_invariant_reachable_witness :
    cartsOk [] ∧
    cartsOk (runAdds [] [(some "u1", some "p1"), (some "u1", some "p1")]) :=
  ⟨by decide,
    cart_invariant_reachable [] (by decide)
      [(some "u1", some "p1"), (some "u1", some "p1")]⟩

/-- C10: when POST /cart/add operates on an existing cart, every item with a
different productId is preserved with its quantity and its relative order,
and a genuinely new item is appended at the end of the item list. -/
theorem cart_add_frame (carts : List Cart) (u p : String) (c : Cart)
    (hu : u ≠ "") (hp : p ≠ "")
    (hc : findCart u carts = some c) :
    (cartAdd carts (some u) (some p)).carts
      = setCartItems u (addToItems p c.items) carts ∧
    (addToItems p c.items).filter (fun i => !(i.productId == p))
      = c.items.filter (fun i => !(i.productId == p)) ∧
    (∀ i ∈ c.items, (i.productId == p) = false → i ∈ addToItems p c.items) ∧
    (hasItem p c.items = false → addToItems p c.items = c.items ++ [⟨p, 1⟩]) := by
  have hbu : (u == "") = false := beq_eq_false_iff_ne.mpr hu
  have hbp : (p == "") = false := beq_eq_false_iff_ne.mpr hp
  refine ⟨?_, addToItems_filter_ne p c.items, ?_, ?_⟩
  · rw [cartAdd_eq_of_found carts u p c hbu hbp hc]
  · intro i hi hne
    have h1 : i ∈ c.items.filter (fun j => !(j.productId == p)) :=
      List.mem_filter.mpr ⟨hi, by simp [hne]⟩
    rw [← addToItems_filter_ne] at h1
    exact List.mem_of_mem_filter h1
  · intro hno
    rw [addToItems, if_neg (by simp [hno])]

theorem cart_add_frame_witness :
    ("u1" : String) ≠ "" ∧ ("p1" : String) ≠ "" ∧
    findCart "u1" [⟨"u1", [⟨"p0", 1⟩]⟩] = some ⟨"u1", [⟨"p0", 1⟩]⟩ ∧
    (cartAdd [⟨"u1", [⟨"p0", 1⟩]⟩] (some "u1") (some "p1")).carts
      = setCartItems "u1" (addToItems "p1" [⟨"p0", 1⟩]) [⟨"u1", [⟨"p0", 1⟩]⟩] :=
  ⟨by decide, by decide, by decide,
    (cart_add_frame [⟨"u1", [⟨"p0", 1⟩]⟩] "u1" "p1" ⟨"u1", [⟨"p0", 1⟩]⟩
      (by decide) (by decide) (by decide)).1⟩

end ProductHub
